import Mathlib

/-!
Verification of the gesture-driven volume controller in
`src/commands/volume_commands.py` (classes `VolumeCommands` and
`VolumeController`).

The per-frame arithmetic (distance-to-volume mapping, clamping,
exponential smoothing) is embedded over `ℚ`; the frame loop is embedded
as an explicit step function over a controller-state record, driven by a
list of per-iteration environment inputs (hand detection result, audio
endpoint read/write outcomes, quit-key presses, external stop requests).
-/

/-- `min_dist` constant from `VolumeController.run` (line 245). -/
def min_dist : ℚ := 20

/-- `max_dist` constant from `VolumeController.run` (line 246). -/
def max_dist : ℚ := 180

/-- `self.smoothing_factor = 0.1` from `VolumeController.__init__` (line 94). -/
def smoothing_factor : ℚ := 1 / 10

/-- `vol = (dist - min_dist) / (max_dist - min_dist)` (line 248). -/
def rawVol (dist : ℚ) : ℚ := (dist - min_dist) / (max_dist - min_dist)

/-- `vol = max(0.0, min(1.0, vol))` (line 249). -/
def clamp01 (v : ℚ) : ℚ := max 0 (min 1 v)

/-- The clamped per-frame volume fraction computed from the pinch distance
(lines 248-249). -/
def frameVol (dist : ℚ) : ℚ := clamp01 (rawVol dist)

/-- `self.smooth_vol = self.smooth_vol + (vol - self.smooth_vol) * self.smoothing_factor`
(line 251). -/
def smoothStep (smoothed vol : ℚ) : ℚ :=
  smoothed + (vol - smoothed) * smoothing_factor

/-- Python `int(...)` truncation toward zero, used for `int(current_vol * 100)`
(line 213). -/
def pyTrunc (q : ℚ) : ℤ := if q < 0 then ⌈q⌉ else ⌊q⌋

/-- State of one `VolumeController` instance: fields `smooth_vol`,
`is_running`, `initialized`, `use_pycaw` set in `__init__` (lines 93-97). -/
structure ControllerState where
  smooth_vol : ℚ
  is_running : Bool
  initialized : Bool
  use_pycaw : Bool
deriving DecidableEq, Repr

/-- Outcome of the audio-backend setup attempted in `__init__` (lines 99-142):
either the standard pycaw path succeeds and reports the current system volume,
or the alternative path succeeds after an `AttributeError`, or both fail, or a
non-`AttributeError` exception aborts the first attempt. -/
inductive AudioInitResult where
  | method1Ok (sysVol : ℚ)
  | attrErrThen2Ok (sysVol : ℚ)
  | attrErrThen2Fail
  | otherExc
deriving DecidableEq, Repr

/-- `VolumeController.__init__` (lines 92-142): starts from
`smooth_vol = 0.5`, `is_running = False`, `initialized = False`,
`use_pycaw = False`; when the pycaw import succeeded, tries to activate the
endpoint and on success overwrites `smooth_vol` with
`GetMasterVolumeLevelScalar()`; every branch ends with `initialized = True`. -/
def controllerInit (usePycawImport : Bool) (r : AudioInitResult) : ControllerState :=
  if usePycawImport then
    match r with
    | .method1Ok v => ⟨v, false, true, true⟩
    | .attrErrThen2Ok v => ⟨v, false, true, true⟩
    | .attrErrThen2Fail => ⟨1 / 2, false, true, false⟩
    | .otherExc => ⟨1 / 2, false, true, false⟩
  else ⟨1 / 2, false, true, false⟩

/-- Environment data for one successfully read frame: `hand` is the pinch
distance when a hand is detected (lines 218, 243), `getVol` is the result of
`GetMasterVolumeLevelScalar()` (line 207, `none` when it raises),
`setVolFails` tells whether `SetMasterVolumeLevelScalar` raises (line 256),
`quitKey` tells whether `waitKey` reports the q key (line 272). -/
structure FrameData where
  hand : Option ℚ
  getVol : Option ℚ
  setVolFails : Bool
  quitKey : Bool
deriving DecidableEq, Repr

/-- One iteration of the `while self.is_running` loop (line 181), as seen by
the worker: either `is_running` was already cleared by `stop()`, or
`cap.read()` failed (line 183), or a frame was processed. -/
inductive LoopInput where
  | stopRequested
  | readFail
  | frame (f : FrameData)
deriving DecidableEq, Repr

/-- Observable per-frame effects: the volume percentage drawn on the frame
(line 215), the hand overlay drawing (lines 221-240), a call to
`SetMasterVolumeLevelScalar` with its success flag (line 256), a call to the
`_set_system_volume` fallback (line 261), the "Show your hand!" indicator
(line 263). -/
inductive FrameEvent where
  | displayPercent (p : ℤ)
  | handOverlay
  | setVolScalar (v : ℚ) (ok : Bool)
  | setSysVolume (v : ℚ)
  | showNoHand
deriving DecidableEq, Repr

/-- The body of the frame loop (lines 182-274) for one successfully read
frame: returns the next controller state, the emitted events in order, and
whether the quit key broke the loop. -/
def frameStep (s : ControllerState) (f : FrameData) :
    ControllerState × List FrameEvent × Bool :=
  let current_vol :=
    if s.use_pycaw then
      match f.getVol with
      | some v => v
      | none => s.smooth_vol
    else s.smooth_vol
  let dispEv := FrameEvent.displayPercent (pyTrunc (current_vol * 100))
  match f.hand with
  | some dist =>
      let vol := frameVol dist
      let newSmooth := smoothStep s.smooth_vol vol
      let s' := { s with smooth_vol := newSmooth }
      let setEv :=
        if s.use_pycaw then FrameEvent.setVolScalar newSmooth (!f.setVolFails)
        else FrameEvent.setSysVolume newSmooth
      (s', [dispEv, FrameEvent.handOverlay, setEv], f.quitKey)
  | none =>
      (s, [dispEv, FrameEvent.showNoHand], f.quitKey)

/-- Result of a terminated `run`: the final controller state, the events of
all processed frames, the `smooth_vol` value after each processed frame, and
whether `cap.release()` / `cv2.destroyAllWindows()` were executed
(lines 276-277). -/
structure RunResult where
  state : ControllerState
  events : List FrameEvent
  smoothTrace : List ℚ
  released : Bool
deriving DecidableEq, Repr

/-- The `while self.is_running` loop (lines 181-279). `none` means the input
trace ran out while the loop was still running. Exits via an observed stop
request, a failed `cap.read()`, or the quit key all fall through to
`cap.release()`, `cv2.destroyAllWindows()` and `self.is_running = False`
(lines 276-279). -/
def loopRun (s : ControllerState) : List LoopInput → Option RunResult
  | [] => none
  | .stopRequested :: _ =>
      some ⟨{ s with is_running := false }, [], [], true⟩
  | .readFail :: _ =>
      some ⟨{ s with is_running := false }, [], [], true⟩
  | .frame f :: rest =>
      let r := frameStep s f
      if r.2.2 then
        some ⟨{ r.1 with is_running := false }, r.2.1, [r.1.smooth_vol], true⟩
      else
        match loopRun r.1 rest with
        | none => none
        | some res =>
            some ⟨res.state, r.2.1 ++ res.events,
                  r.1.smooth_vol :: res.smoothTrace, res.released⟩

/-- `VolumeController.run` (lines 144-279): returns at once when not
initialized (line 146); otherwise sets `is_running = True` (line 157), opens
the camera, and when the camera cannot be opened returns at line 162 without
entering the loop, without releasing the capture handle and without clearing
`is_running`; otherwise runs the frame loop. -/
def controllerRun (s : ControllerState) (camOpens : Bool)
    (inputs : List LoopInput) : Option RunResult :=
  if ¬ s.initialized then some ⟨s, [], [], false⟩
  else if ¬ camOpens then some ⟨{ s with is_running := true }, [], [], false⟩
  else loopRun { s with is_running := true } inputs

/-- What `VolumeCommands.start_volume_control` reports (lines 35-66). -/
inductive StartReport where
  | starting
  | failedInit
  | alreadyRunning
deriving DecidableEq, Repr

/-- Effects of one call to `start_volume_control`. -/
structure StartResult where
  report : StartReport
  controllerCreated : Bool
  threadCreated : Bool
deriving DecidableEq, Repr

/-- `VolumeCommands.start_volume_control` (lines 35-66): when
`self.control_thread` is `None` or not alive, announces the start, constructs
a fresh `VolumeController`, and when that controller reports
`initialized` starts a daemon worker thread on its `run`; otherwise reports
that volume control is already running and creates nothing. -/
def start_volume_control (threadAlive : Bool) (c : ControllerState) :
    StartResult :=
  if threadAlive then ⟨.alreadyRunning, false, false⟩
  else if c.initialized then ⟨.starting, true, true⟩
  else ⟨.failedInit, true, false⟩

/-- The invariant claimed for the smoothed volume: it stays in `[0, 1]`. -/
def stateInv (s : ControllerState) : Prop :=
  0 ≤ s.smooth_vol ∧ s.smooth_vol ≤ 1

/-- Every volume value carried by a set-volume event lies in `[0, 1]`. -/
def eventInv : FrameEvent → Prop
  | .setVolScalar v _ => 0 ≤ v ∧ v ≤ 1
  | .setSysVolume v => 0 ≤ v ∧ v ≤ 1
  | _ => True

/-- The audio-endpoint contract assumed at construction:
`GetMasterVolumeLevelScalar()` returns a fraction in `[0, 1]`. -/
def audioInitOk : AudioInitResult → Prop
  | .method1Ok v => 0 ≤ v ∧ v ≤ 1
  | .attrErrThen2Ok v => 0 ≤ v ∧ v ≤ 1
  | _ => True

/-- Two loop inputs that agree except possibly in the result of the
per-frame `GetMasterVolumeLevelScalar()` read. -/
def sameUpToGetVol : LoopInput → LoopInput → Prop
  | .stopRequested, .stopRequested => True
  | .readFail, .readFail => True
  | .frame f1, .frame f2 =>
      f1.hand = f2.hand ∧ f1.setVolFails = f2.setVolFails
        ∧ f1.quitKey = f2.quitKey
  | _, _ => False

/-- The sequence of volume values passed to the set-volume operations
(`SetMasterVolumeLevelScalar` or the `_set_system_volume` fallback). -/
def setCalls (evs : List FrameEvent) : List ℚ :=
  evs.filterMap fun e =>
    match e with
    | .setVolScalar v _ => some v
    | .setSysVolume v => some v
    | _ => none

/-- Every branch of `__init__` sets `initialized = True` (lines 109, 128,
133, 138, 142). -/
theorem controllerInit_initialized (u : Bool) (r : AudioInitResult) :
    (controllerInit u r).initialized = true := by
  cases u <;> cases r <;> rfl

/-- C1: for every detected hand frame, the raw volume fraction is
`(dist - MIN_DIST) / (MAX_DIST - MIN_DIST)` with `MIN_DIST = 20` and
`MAX_DIST = 180`, then clamped to `[0, 1]`; for `d ≤ 20` the clamped result
is `0` and for `d ≥ 180` it is `1`. -/
theorem C1_raw_fraction_clamped (d : ℚ) :
    rawVol d = (d - 20) / (180 - 20)
    ∧ (0 ≤ frameVol d ∧ frameVol d ≤ 1)
    ∧ (d ≤ 20 → frameVol d = 0)
    ∧ (180 ≤ d → frameVol d = 1) := by
  have h160 : (0 : ℚ) < 160 := by norm_num
  have hden : max_dist - min_dist = (160 : ℚ) := by
    unfold max_dist min_dist
    norm_num
  refine ⟨rfl, ⟨le_max_left _ _, max_le (by norm_num) (min_le_left _ _)⟩, ?_, ?_⟩
  · intro h
    have hr : rawVol d ≤ 0 := by
      unfold rawVol
      rw [hden, div_le_iff₀ h160]
      unfold min_dist
      linarith
    unfold frameVol clamp01
    rw [min_eq_right (le_trans hr (by norm_num)), max_eq_left hr]
  · intro h
    have hr : (1 : ℚ) ≤ rawVol d := by
      unfold rawVol
      rw [hden, le_div_iff₀ h160]
      unfold min_dist
      linarith
    unfold frameVol clamp01
    rw [min_eq_left hr]
    norm_num

/-- Witness for C1 at `d = 5` and `d = 200`. -/
theorem C1_raw_fraction_clamped_witness :
    frameVol 5 = 0 ∧ frameVol 200 = 1 :=
  ⟨(C1_raw_fraction_clamped 5).2.2.1 (by norm_num),
   (C1_raw_fraction_clamped 200).2.2.2 (by norm_num)⟩

/-- C2: on every hand-detected frame the smoothed volume is updated by
`smoothed + (raw - smoothed) * ALPHA` with `ALPHA = 0.1`; starting from
`smoothed = 0.5`, the frames with distances 100, 180, 20 yield smoothed
values 0.5, 0.55, 0.495. -/
theorem C2_smoothing_update_scenario :
    (∀ (s : ControllerState) (d : ℚ) (g : Option ℚ) (sf q : Bool),
        (frameStep s ⟨some d, g, sf, q⟩).1.smooth_vol
          = s.smooth_vol + (frameVol d - s.smooth_vol) * (1 / 10))
    ∧ (loopRun ⟨1/2, true, true, false⟩
        [.frame ⟨some 100, none, false, false⟩,
         .frame ⟨some 180, none, false, false⟩,
         .frame ⟨some 20, none, false, true⟩]).map RunResult.smoothTrace
      = some [1/2, 11/20, 99/200] := by
  constructor
  · intro s d g sf q
    rfl
  · norm_num [loopRun, frameStep, frameVol, clamp01, rawVol, smoothStep,
      smoothing_factor, min_dist, max_dist, min_def, max_def, Option.map]

/-- C6: the smoothing update is idempotent at its fixed point; for
`raw ≠ smoothed` each application moves `smoothed` strictly closer to `raw`
(staying strictly between), and the iterated distance to `raw` decays
geometrically with ratio `9/10`. -/
theorem C6_smoothing_fixed_point_contraction :
    (∀ s : ℚ, smoothStep s s = s)
    ∧ (∀ s raw : ℚ, s ≠ raw →
        |smoothStep s raw - raw| < |s - raw|
        ∧ (s < raw → s < smoothStep s raw ∧ smoothStep s raw < raw)
        ∧ (raw < s → raw < smoothStep s raw ∧ smoothStep s raw < s))
    ∧ (∀ (raw s0 : ℚ) (n : ℕ),
        (fun x => smoothStep x raw)^[n] s0 - raw = (9/10) ^ n * (s0 - raw)) := by
  have key : ∀ s raw : ℚ, smoothStep s raw - raw = (9/10) * (s - raw) := by
    intro s raw
    unfold smoothStep smoothing_factor
    ring
  refine ⟨?_, ?_, ?_⟩
  · intro s
    simp [smoothStep]
  · intro s raw h
    have h0 : 0 < |s - raw| := abs_pos.mpr (sub_ne_zero.mpr h)
    refine ⟨?_, ?_, ?_⟩
    · rw [key, abs_mul, abs_of_pos (by norm_num : (0:ℚ) < 9/10)]
      linarith
    · intro hlt
      unfold smoothStep smoothing_factor
      constructor <;> nlinarith
    · intro hlt
      unfold smoothStep smoothing_factor
      constructor <;> nlinarith
  · intro raw s0 n
    induction n with
    | zero => simp
    | succ n ih =>
      rw [Function.iterate_succ_apply', pow_succ]
      have := key ((fun x => smoothStep x raw)^[n] s0) raw
      simp only at this ⊢
      rw [this, ih]
      ring

/-- Witness for C6 at `s = 0`, `raw = 1`. -/
theorem C6_smoothing_fixed_point_contraction_witness :
    (0 : ℚ) ≠ 1 ∧ |smoothStep 0 1 - 1| < |(0 : ℚ) - 1| :=
  ⟨by norm_num,
   (C6_smoothing_fixed_point_contraction.2.1 0 1 (by norm_num)).1⟩

theorem clamp01_mem (v : ℚ) : 0 ≤ clamp01 v ∧ clamp01 v ≤ 1 :=
  ⟨le_max_left _ _, max_le (by norm_num) (min_le_left _ _)⟩

theorem smoothStep_mem {s v : ℚ} (hs : 0 ≤ s ∧ s ≤ 1) (hv : 0 ≤ v ∧ v ≤ 1) :
    0 ≤ smoothStep s v ∧ smoothStep s v ≤ 1 := by
  unfold smoothStep smoothing_factor
  constructor <;> nlinarith [hs.1, hs.2, hv.1, hv.2]

theorem frameStep_inv {s : ControllerState} (h : stateInv s) (f : FrameData) :
    stateInv (frameStep s f).1 ∧ ∀ e ∈ (frameStep s f).2.1, eventInv e := by
  obtain ⟨hand, g, sf, q⟩ := f
  cases hand with
  | none =>
      refine ⟨h, ?_⟩
      intro e he
      simp [frameStep] at he
      rcases he with rfl | rfl
      · trivial
      · trivial
  | some d =>
      have hsm := smoothStep_mem h (clamp01_mem (rawVol d))
      refine ⟨hsm, ?_⟩
      intro e he
      simp [frameStep] at he
      rcases he with rfl | rfl | rfl
      · trivial
      · trivial
      · by_cases hp : s.use_pycaw = true
        · rw [if_pos hp]
          exact hsm
        · rw [if_neg hp]
          exact hsm

theorem loopRun_inv (inputs : List LoopInput) :
    ∀ (s : ControllerState) (res : RunResult), stateInv s →
      loopRun s inputs = some res →
      stateInv res.state ∧ (∀ e ∈ res.events, eventInv e)
        ∧ (∀ v ∈ res.smoothTrace, 0 ≤ v ∧ v ≤ 1) := by
  induction inputs with
  | nil =>
      intro s res h hres
      simp [loopRun] at hres
  | cons i rest ih =>
      intro s res h hres
      cases i with
      | stopRequested =>
          simp only [loopRun, Option.some.injEq] at hres
          subst hres
          exact ⟨h, by simp, by simp⟩
      | readFail =>
          simp only [loopRun, Option.some.injEq] at hres
          subst hres
          exact ⟨h, by simp, by simp⟩
      | frame f =>
          have hstep := frameStep_inv h f
          by_cases hq : (frameStep s f).2.2 = true
          · simp only [loopRun, hq, if_true, Option.some.injEq] at hres
            subst hres
            refine ⟨hstep.1, hstep.2, ?_⟩
            intro v hv
            simp at hv
            subst hv
            exact hstep.1
          · simp only [loopRun, hq, if_false, Bool.false_eq_true] at hres
            cases hrec : loopRun (frameStep s f).1 rest with
            | none =>
                rw [hrec] at hres
                cases hres
            | some res2 =>
                rw [hrec] at hres
                simp only [Option.some.injEq] at hres
                subst hres
                have hrec2 := ih (frameStep s f).1 res2 hstep.1 hrec
                refine ⟨hrec2.1, ?_, ?_⟩
                · intro e he
                  simp only [List.mem_append] at he
                  rcases he with he | he
                  · exact hstep.2 e he
                  · exact hrec2.2.1 e he
                · intro v hv
                  simp only [List.mem_cons] at hv
                  rcases hv with rfl | hv
                  · exact hstep.1
                  · exact hrec2.2.2 v hv

theorem loopRun_released (inputs : List LoopInput) :
    ∀ (s : ControllerState) (res : RunResult),
      loopRun s inputs = some res → res.released = true := by
  induction inputs with
  | nil =>
      intro s res hres
      simp [loopRun] at hres
  | cons i rest ih =>
      intro s res hres
      cases i with
      | stopRequested =>
          simp only [loopRun, Option.some.injEq] at hres
          subst hres
          rfl
      | readFail =>
          simp only [loopRun, Option.some.injEq] at hres
          subst hres
          rfl
      | frame f =>
          by_cases hq : (frameStep s f).2.2 = true
          · simp only [loopRun, hq, if_true, Option.some.injEq] at hres
            subst hres
            rfl
          · simp only [loopRun, hq, if_false, Bool.false_eq_true] at hres
            cases hrec : loopRun (frameStep s f).1 rest with
            | none =>
                rw [hrec] at hres
                cases hres
            | some res2 =>
                rw [hrec] at hres
                simp only [Option.some.injEq] at hres
                subst hres
                exact ih (frameStep s f).1 res2 hrec

/-- C3: the smoothed volume stays in `[0, 1]`: it holds at construction
(given that the audio endpoint reports a fraction in `[0, 1]`), it is
preserved by every per-frame step, and in every terminated run every value
passed to a set-volume operation lies in `[0, 1]`. -/
theorem C3_smoothed_volume_invariant :
    (∀ (u : Bool) (r : AudioInitResult), audioInitOk r →
        stateInv (controllerInit u r))
    ∧ (∀ (s : ControllerState) (f : FrameData), stateInv s →
        stateInv (frameStep s f).1)
    ∧ (∀ (u : Bool) (r : AudioInitResult) (camOpens : Bool)
          (inputs : List LoopInput) (res : RunResult), audioInitOk r →
        controllerRun (controllerInit u r) camOpens inputs = some res →
        stateInv res.state ∧ ∀ e ∈ res.events, eventInv e) := by
  have hinit : ∀ (u : Bool) (r : AudioInitResult), audioInitOk r →
      stateInv (controllerInit u r) := by
    intro u r hok
    cases u <;> cases r <;>
      simp only [controllerInit, stateInv, audioInitOk] at hok ⊢ <;>
      first
        | exact hok
        | norm_num
  refine ⟨hinit, ?_, ?_⟩
  · intro s f h
    exact (frameStep_inv h f).1
  · intro u r camOpens inputs res hok hres
    have h0 := hinit u r hok
    rw [controllerRun, if_neg (by simp [controllerInit_initialized])] at hres
    cases camOpens with
    | false =>
        rw [if_pos (by simp)] at hres
        injection hres with hres
        subst hres
        exact ⟨h0, by simp⟩
    | true =>
        rw [if_neg (by simp)] at hres
        have hr := loopRun_inv inputs
          { controllerInit u r with is_running := true } res h0 hres
        exact ⟨hr.1, hr.2.1⟩

/-- Witness for C3 with the visual-only construction path. -/
theorem C3_smoothed_volume_invariant_witness :
    audioInitOk AudioInitResult.otherExc
    ∧ stateInv (controllerInit false AudioInitResult.otherExc) :=
  ⟨trivial, C3_smoothed_volume_invariant.1 false AudioInitResult.otherExc trivial⟩

/-- C5: on a frame with no detected hand, the controller state (hence the
smoothed volume) is unchanged, the emitted effects are exactly the always-on
percentage text and the "Show your hand!" indicator (so no set-volume call
and no hand overlay), and loop termination is decided by the quit key alone. -/
theorem C5_no_hand_frame_no_update (s : ControllerState) (g : Option ℚ)
    (sf q : Bool) :
    (frameStep s ⟨none, g, sf, q⟩).1 = s
    ∧ (∃ p, (frameStep s ⟨none, g, sf, q⟩).2.1
        = [FrameEvent.displayPercent p, FrameEvent.showNoHand])
    ∧ (frameStep s ⟨none, g, sf, q⟩).2.2 = q :=
  ⟨rfl, ⟨_, rfl⟩, rfl⟩

/-- C7: a start request issued while the previous worker thread is alive
creates no controller instance and no worker thread, and reports the request
as already running. -/
theorem C7_second_start_rejected (c : ControllerState) :
    start_volume_control true c
      = ⟨StartReport.alreadyRunning, false, false⟩ := rfl

/-- C9: an audio-endpoint failure in a frame is non-fatal: a frame whose
get-volume read raises and whose set-volume write raises produces the same
next controller state as the same frame with a working endpoint, does not by
itself terminate the loop, still emits the percentage display, and a
non-quit frame leaves the loop waiting for the next frame. -/
theorem C9_endpoint_failure_nonfatal (s : ControllerState) (hand : Option ℚ)
    (g : Option ℚ) (q : Bool) :
    (frameStep s ⟨hand, none, true, q⟩).1 = (frameStep s ⟨hand, g, false, q⟩).1
    ∧ (frameStep s ⟨hand, none, true, q⟩).2.2 = q
    ∧ (∃ p evs, (frameStep s ⟨hand, none, true, q⟩).2.1
        = FrameEvent.displayPercent p :: evs)
    ∧ loopRun s [.frame ⟨hand, none, true, false⟩] = none := by
  cases hand <;> exact ⟨rfl, rfl, ⟨_, _, rfl⟩, rfl⟩

/-- C4 counterexample: construct a controller (visual-only path) and let the
camera fail to open. The run returns with the running flag still set — the
controller is not left in the Stopped state — and the start call had already
created a worker thread (the camera is opened inside the worker). -/
theorem C4_counterexample :
    Option.map (fun r => r.state.is_running)
        (controllerRun (controllerInit false AudioInitResult.otherExc) false [])
      = some true
    ∧ (start_volume_control false
        (controllerInit false AudioInitResult.otherExc)).threadCreated = true :=
  ⟨rfl, rfl⟩

/-- C4 amended: if the camera cannot be opened, the worker's run reports the
failure and returns at once, processing no frames and not retrying; however
the worker thread had already been created by the start call (the camera is
opened inside the worker, after the thread starts), and the running flag
remains set on this path instead of being cleared. -/
theorem C4_camera_open_failure (s : ControllerState) (inputs : List LoopInput)
    (h : s.initialized = true) :
    controllerRun s false inputs
      = some ⟨{ s with is_running := true }, [], [], false⟩
    ∧ (start_volume_control false s).threadCreated = true := by
  constructor
  · rw [controllerRun, if_neg (by simp [h]), if_pos (by simp)]
  · rw [start_volume_control, if_neg (by simp), if_pos h]

/-- Witness for C4 amended at a concretely constructed controller. -/
theorem C4_camera_open_failure_witness :
    (controllerInit false AudioInitResult.otherExc).initialized = true
    ∧ controllerRun (controllerInit false AudioInitResult.otherExc) false []
        = some ⟨{ controllerInit false AudioInitResult.otherExc with
                  is_running := true }, [], [], false⟩ :=
  ⟨rfl, (C4_camera_open_failure (controllerInit false AudioInitResult.otherExc)
          [] rfl).1⟩

/-- C8 counterexample: on the camera-open-failure path — one of the paths the
claim enumerates — the run returns without executing the release step. -/
theorem C8_counterexample :
    Option.map RunResult.released
        (controllerRun (controllerInit false AudioInitResult.otherExc) false [])
      = some false := rfl

/-- C8 amended: on the exit paths that leave the frame loop — external stop,
quit key, and frame-read failure — the camera handle and the preview window
are released before the run returns; on the camera-open-failure path the run
returns without releasing them (no frame was read and no preview window had
been created on that path). -/
theorem C8_release_on_loop_exit (s : ControllerState) (inputs : List LoopInput)
    (res : RunResult) (hinit : s.initialized = true)
    (h : controllerRun s true inputs = some res) :
    res.released = true := by
  rw [controllerRun, if_neg (by simp [hinit]), if_neg (by simp)] at h
  exact loopRun_released inputs { s with is_running := true } res h

/-- Witness for C8 amended on a stop-request exit. -/
theorem C8_release_on_loop_exit_witness :
    controllerRun (controllerInit false AudioInitResult.otherExc) true
        [LoopInput.stopRequested]
      = some ⟨⟨1 / 2, false, true, false⟩, [], [], true⟩
    ∧ RunResult.released ⟨⟨1 / 2, false, true, false⟩, [], [], true⟩ = true :=
  ⟨rfl, C8_release_on_loop_exit (controllerInit false AudioInitResult.otherExc)
          [LoopInput.stopRequested] ⟨⟨1 / 2, false, true, false⟩, [], [], true⟩
          rfl rfl⟩

theorem setCalls_append (l1 l2 : List FrameEvent) :
    setCalls (l1 ++ l2) = setCalls l1 ++ setCalls l2 :=
  List.filterMap_append l1 l2 _

theorem frameStep_getVol_congr (s : ControllerState) {f1 f2 : FrameData}
    (hh : f1.hand = f2.hand) (hsf : f1.setVolFails = f2.setVolFails)
    (hq : f1.quitKey = f2.quitKey) :
    (frameStep s f1).1 = (frameStep s f2).1
    ∧ setCalls (frameStep s f1).2.1 = setCalls (frameStep s f2).2.1
    ∧ (frameStep s f1).2.2 = (frameStep s f2).2.2 := by
  obtain ⟨h1, g1, sf1, q1⟩ := f1
  obtain ⟨h2, g2, sf2, q2⟩ := f2
  simp only at hh hsf hq
  subst hh hsf hq
  cases h1 with
  | none => exact ⟨rfl, rfl, rfl⟩
  | some d =>
      refine ⟨rfl, ?_, rfl⟩
      by_cases hp : s.use_pycaw = true <;>
        simp [frameStep, setCalls, hp]

theorem C10_loop_lemma (inputs1 inputs2 : List LoopInput)
    (h : List.Forall₂ sameUpToGetVol inputs1 inputs2) :
    ∀ s : ControllerState,
      Option.map (fun r => (r.state, setCalls r.events, r.smoothTrace, r.released))
          (loopRun s inputs1)
        = Option.map (fun r => (r.state, setCalls r.events, r.smoothTrace, r.released))
            (loopRun s inputs2) := by
  induction h with
  | nil => intro s; rfl
  | cons hrel htail ih =>
      rename_i a b as bs
      intro s
      cases a with
      | stopRequested =>
          cases b with
          | stopRequested => rfl
          | readFail => exact False.elim hrel
          | frame f => exact False.elim hrel
      | readFail =>
          cases b with
          | stopRequested => exact False.elim hrel
          | readFail => rfl
          | frame f => exact False.elim hrel
      | frame f1 =>
          cases b with
          | stopRequested => exact False.elim hrel
          | readFail => exact False.elim hrel
          | frame f2 =>
              obtain ⟨hh, hsf, hq⟩ := hrel
              have hc := frameStep_getVol_congr s hh hsf hq
              simp only [loopRun]
              rw [← hc.2.2, ← hc.1]
              by_cases hb : (frameStep s f1).2.2 = true
              · rw [if_pos hb, if_pos hb]
                simp only [Option.map_some']
                rw [hc.2.1]
              · rw [if_neg hb, if_neg hb]
                have hrec := ih (frameStep s f1).1
                cases h1 : loopRun (frameStep s f1).1 as with
                | none =>
                    rw [h1] at hrec
                    cases h2 : loopRun (frameStep s f1).1 bs with
                    | none => rfl
                    | some res2 =>
                        rw [h2] at hrec
                        exact absurd hrec (by simp)
                | some res1 =>
                    rw [h1] at hrec
                    cases h2 : loopRun (frameStep s f1).1 bs with
                    | none =>
                        rw [h2] at hrec
                        exact absurd hrec (by simp)
                    | some res2 =>
                        rw [h2] at hrec
                        simp only [Option.map_some', Option.some.injEq,
                          Prod.mk.injEq] at hrec
                        obtain ⟨hst, hsc, htr, hrl⟩ := hrec
                        simp only [Option.map_some', Option.some.injEq,
                          Prod.mk.injEq]
                        refine ⟨hst, ?_, by rw [htr], hrl⟩
                        rw [setCalls_append, setCalls_append, hsc, hc.2.1]

/-- C10: the value read back from the audio endpoint per frame influences
only the displayed percentage: two runs over input traces that agree except
in the per-frame get-volume results produce the same final state, the same
sequence of values passed to set-volume, the same smoothed-volume trace, and
the same release status. -/
theorem C10_getVol_noninterference (s : ControllerState)
    (inputs1 inputs2 : List LoopInput)
    (h : List.Forall₂ sameUpToGetVol inputs1 inputs2) :
    Option.map (fun r => (r.state, setCalls r.events, r.smoothTrace, r.released))
        (loopRun s inputs1)
      = Option.map (fun r => (r.state, setCalls r.events, r.smoothTrace, r.released))
          (loopRun s inputs2) :=
  C10_loop_lemma inputs1 inputs2 h s

/-- Witness for C10: one-frame traces differing only in the get-volume
result (a successful read of 1/4 against a raised read). -/
theorem C10_getVol_noninterference_witness :
    List.Forall₂ sameUpToGetVol
      [LoopInput.frame ⟨some 100, some (1/4), false, true⟩]
      [LoopInput.frame ⟨some 100, none, false, true⟩]
    ∧ Option.map (fun r => (r.state, setCalls r.events, r.smoothTrace, r.released))
        (loopRun ⟨1/2, true, true, true⟩
          [LoopInput.frame ⟨some 100, some (1/4), false, true⟩])
      = Option.map (fun r => (r.state, setCalls r.events, r.smoothTrace, r.released))
          (loopRun ⟨1/2, true, true, true⟩
            [LoopInput.frame ⟨some 100, none, false, true⟩]) :=
  ⟨List.Forall₂.cons ⟨rfl, rfl, rfl⟩ List.Forall₂.nil,
   C10_getVol_noninterference ⟨1/2, true, true, true⟩ _ _
     (List.Forall₂.cons ⟨rfl, rfl, rfl⟩ List.Forall₂.nil)⟩
